import Mathlib

/-!
Verification of the novabarbearia backend against its specification.

The data model (clients, services, attendances with a many-to-many service
join) and the service-layer operations are embedded shallowly: the relational
store is a record of lists, timestamps are integer seconds on an absolute
time line, `func.date` is floor division by 86400, currency amounts are exact
rationals, and every operation is a pure function from the store (plus the
current instant) to the new store and an `Except` result mirroring the
`HTTPException`s raised by the Python code in `services/attendance_service.py`
and `services/client_service.py`.
-/

namespace Barbearia

/-- Timestamps are integer seconds on an absolute time line. -/
abbrev Timestamp := Int

/-- `func.date` / `.date()`: the day number containing an instant
(floor division by the 86400 seconds of a day). -/
def dateOf (t : Timestamp) : Int := Int.fdiv t 86400

/-- Row of the `clients` table (`models.Client`). -/
structure Client where
  id : Nat
  name : String := ""
  cpf : String := ""
  phone : String := ""
  email : Option String := none
  created_at : Timestamp := 0
  updated_at : Timestamp := 0
  is_active : Bool := true
deriving Repr, DecidableEq

/-- Row of the `services` table (`models.Service`). -/
structure Service where
  id : Nat
  name : String := ""
  description : Option String := none
  price : Rat := 0
  duration_minutes : Nat := 30
  is_active : Bool := true
deriving Repr, DecidableEq

/-- Row of the `attendances` table (`models.Attendance`); `services` holds the
service ids of its `attendance_services` join rows. -/
structure Attendance where
  id : Nat
  client_id : Nat
  appointment_date : Timestamp
  status : String := "waiting"
  payment_method : Option String := none
  payment_status : String := "pending"
  notes : Option String := none
  created_at : Timestamp := 0
  updated_at : Timestamp := 0
  services : List Nat := []
deriving Repr, DecidableEq

/-- The relational store. -/
structure DB where
  clients : List Client := []
  services : List Service := []
  attendances : List Attendance := []
  nextAttendanceId : Nat := 1
deriving Repr, DecidableEq

/-- `fastapi.HTTPException`. -/
structure HTTPError where
  status_code : Nat
  detail : String
deriving Repr, DecidableEq

/-- `schemas.AttendanceCreate`. -/
structure AttendanceCreate where
  client_id : Nat
  appointment_date : Timestamp
  payment_method : Option String := none
  notes : Option String := none
  service_ids : List Nat
deriving Repr, DecidableEq

/-- `schemas.AttendanceUpdate`: the outer `Option` records whether the field
was supplied in the call (pydantic `exclude_unset`), the inner one whether
the supplied value was null. -/
structure AttendanceUpdate where
  status : Option (Option String) := none
  payment_method : Option (Option String) := none
  payment_status : Option (Option String) := none
  notes : Option (Option String) := none
deriving Repr, DecidableEq

/-- Python `update_data.get(key)`: `None` both when the key is absent and
when it was supplied as null. -/
def dictGet (x : Option (Option String)) : Option String := x.getD none

/-- Lines 22-26 of `create_attendance`: reactivate the addressed client when
it is inactive, committing immediately. -/
def reactivateIfInactive (db : DB) (now : Timestamp) (cid : Nat) (client : Client) : DB :=
  if !client.is_active then
    { db with clients := db.clients.map (fun c =>
        if c.id == cid then { c with is_active := true, updated_at := now } else c) }
  else db

/-- Line 29 of `create_attendance`: the currently-active service rows whose
id is among the requested ids. -/
def activeRequested (db : DB) (ids : List Nat) : List Service :=
  db.services.filter (fun s => ids.contains s.id && s.is_active)

/-- `AttendanceService.create_attendance` (lines 12-49 of the source).  Note
that the reactivation of an inactive client is committed *before* the
service validation. -/
def create_attendance (db : DB) (now : Timestamp) (att : AttendanceCreate) :
    DB × Except HTTPError Attendance :=
  match db.clients.find? (fun c => c.id == att.client_id) with
  | none => (db, .error ⟨404, "Cliente não encontrado"⟩)
  | some client =>
    let db1 := reactivateIfInactive db now att.client_id client
    let services := activeRequested db1 att.service_ids
    if services.isEmpty || services.length != att.service_ids.length then
      (db1, .error ⟨400, "Um ou mais serviços inválidos/inativos"⟩)
    else
      let a : Attendance :=
        { id := db1.nextAttendanceId
          client_id := att.client_id
          appointment_date := att.appointment_date
          status := "waiting"
          payment_method := att.payment_method
          payment_status := "pending"
          notes := att.notes
          created_at := now
          updated_at := now
          services := services.map (fun s => s.id) }
      ({ db1 with attendances := db1.attendances ++ [a]
                  nextAttendanceId := db1.nextAttendanceId + 1 },
       .ok a)

/-- The number of distinct currently-active services matching a list of
requested ids (the cardinality the specification's strict check compares
against the request length). -/
def distinctActiveMatched (db : DB) (ids : List Nat) : Nat :=
  (((activeRequested db ids).map (fun s => s.id)).dedup).length

/-- `AttendanceService.update_attendance` (lines 70-92 of the source).
`a1`..`a5` mirror the successive mutations of `db_attendance`. -/
def update_attendance (db : DB) (now : Timestamp) (attendance_id : Nat)
    (u : AttendanceUpdate) : DB × Except HTTPError Attendance :=
  match db.attendances.find? (fun a => a.id == attendance_id) with
  | none => (db, .error ⟨404, "Atendimento não encontrado"⟩)
  | some a =>
    let a1 :=
      match dictGet u.status with
      | some s =>
        if s ≠ "" then
          { a with status := s
                   payment_status := if s == "finished" then "paid" else a.payment_status }
        else a
      | none => a
    let a2 :=
      match u.payment_method with
      | some (some v) => { a1 with payment_method := some v }
      | _ => a1
    let a3 :=
      match u.payment_status with
      | some (some v) => { a2 with payment_status := v }
      | _ => a2
    let a4 :=
      match u.notes with
      | some v => { a3 with notes := v }
      | none => a3
    let a5 := { a4 with updated_at := now }
    ({ db with attendances := db.attendances.map (fun x => if x.id == attendance_id then a5 else x) },
     .ok a5)

/-- `ClientService.get_clients`: plain offset/limit listing. -/
def get_clients (db : DB) (skip limit : Nat) : List Client :=
  (db.clients.drop skip).take limit

/-- `ClientService.get_clients_with_status` (lines 182-192 of the source). -/
def get_clients_with_status (db : DB) (status_filter : String) (skip limit : Nat) :
    List Client :=
  let query := db.clients
  let query :=
    if status_filter == "active" then query.filter (fun c => c.is_active)
    else if status_filter == "inactive" then query.filter (fun c => !c.is_active)
    else query
  (query.drop skip).take limit

/-- The distinct client ids of attendances on or after the cutoff day
(the `IN` subquery of `auto_inactivate_clients`). -/
def recentClientIds (db : DB) (cutoff : Timestamp) : List Nat :=
  ((db.attendances.filter (fun a => dateOf cutoff ≤ dateOf a.appointment_date)).map
    (fun a => a.client_id)).dedup

/-- The selection predicate of `auto_inactivate_clients`: currently active
and not among the clients with a recent attendance. -/
def shouldAutoInactivate (db : DB) (cutoff : Timestamp) (c : Client) : Bool :=
  c.is_active && !((recentClientIds db cutoff).contains c.id)

/-- `ClientService.auto_inactivate_clients` (lines 204-228 of the source). -/
def auto_inactivate_clients (db : DB) (now : Timestamp) (days_inactive : Nat) :
    DB × Nat :=
  let cutoff_date : Timestamp := now - (days_inactive : Int) * 86400
  let newClients := db.clients.map (fun c =>
    if shouldAutoInactivate db cutoff_date c
    then { c with is_active := false, updated_at := now } else c)
  let count := (db.clients.filter (shouldAutoInactivate db cutoff_date)).length
  ({ db with clients := newClients }, count)

/-- The inactivation criterion as the specification words it: a currently
active client with no attendance whose appointment day is on or after the
day of `now − daysInactive` days. -/
def inactivationDue (db : DB) (now : Timestamp) (days_inactive : Nat) (c : Client) : Prop :=
  c.is_active = true ∧ ∀ a ∈ db.attendances, a.client_id = c.id →
    dateOf a.appointment_date < dateOf (now - (days_inactive : Int) * 86400)

instance (db : DB) (now : Timestamp) (days_inactive : Nat) (c : Client) :
    Decidable (inactivationDue db now days_inactive c) := by
  unfold inactivationDue
  infer_instance

/-! ### Tax-id (CPF) validator, `client_service.py` lines 12-32 -/

/-- `_only_digits` composed with conversion to numeric digits: the digit
sequence of a raw string. -/
def only_digits (s : String) : List Nat :=
  (s.data.filter (fun c => c.isDigit)).map (fun c => c.toNat - 48)

/-- The inner `calc(base)` of `_is_valid_cpf`: weighted mod-11 check digit. -/
def checkDigit (base : List Nat) : Nat :=
  let total := (base.enum.map (fun p => p.2 * (base.length + 1 - p.1))).sum
  let m := total % 11
  if m < 2 then 0 else 11 - m

/-- `_is_valid_cpf` on an already-extracted digit sequence. -/
def cpfDigitsValid (digits : List Nat) : Bool :=
  if digits.length ≠ 11 then false
  else if digits == List.replicate 11 (digits.headD 0) then false
  else
    let d1 := checkDigit (digits.take 9)
    let d2 := checkDigit (digits.take 9 ++ [d1])
    digits.drop 9 == [d1, d2]

/-- `_is_valid_cpf` on the raw string. -/
def is_valid_cpf (cpf : String) : Bool := cpfDigitsValid (only_digits cpf)

/-- The validity criterion as the claim words it: exactly 11 digits, not 11
copies of a single digit, and the last two digits equal the two check
digits, the second computed over the first ten digits of the sequence. -/
def cpfClaimValid (ds : List Nat) : Prop :=
  ds.length = 11 ∧ (∀ d, ds ≠ List.replicate 11 d) ∧
  ds.drop 9 = [checkDigit (ds.take 9), checkDigit (ds.take 10)]

/-! ### Reporting engine, `attendance_service.py` -/

/-- The `attendance_services` join resolved against the `services` table:
one row per (attendance, attached service) pair. -/
def attendanceServiceRows (db : DB) : List (Attendance × Service) :=
  db.attendances.flatMap (fun a =>
    (db.services.filter (fun s => a.services.contains s.id)).map (fun s => (a, s)))

/-- Join rows of paid attendances. -/
def paidRows (db : DB) : List (Attendance × Service) :=
  (attendanceServiceRows db).filter (fun r => r.1.payment_status == "paid")

/-- Paid join rows belonging to one client. -/
def clientPaidRows (db : DB) (cid : Nat) : List (Attendance × Service) :=
  (paidRows db).filter (fun r => r.1.client_id == cid)

/-- One row of the `get_top_clients` result. -/
structure TopClientRow where
  id : Nat
  name : String
  phone : String
  totalVisits : Nat
  totalRevenue : Rat
  lastVisit : Option Timestamp
deriving Repr, DecidableEq

/-- `ORDER BY attendance_count DESC`. -/
def visitsGE (r1 r2 : TopClientRow) : Prop := r2.totalVisits ≤ r1.totalVisits

instance : DecidableRel visitsGE := fun r1 r2 =>
  inferInstanceAs (Decidable (r2.totalVisits ≤ r1.totalVisits))

instance : IsTotal TopClientRow visitsGE :=
  ⟨fun r1 r2 => Nat.le_total r2.totalVisits r1.totalVisits⟩

instance : IsTrans TopClientRow visitsGE :=
  ⟨fun _ _ _ h1 h2 => Nat.le_trans h2 h1⟩

/-- The grouped rows of the `get_top_clients` query (before ordering and
`LIMIT 10`): one row per client owning at least one paid join row, with
`COUNT(Attendance.id)`, `SUM(Service.price)` and `MAX(appointment_date)`
computed over the client's paid join rows. -/
def topClientGroups (db : DB) : List TopClientRow :=
  db.clients.filterMap (fun c =>
    let rows := clientPaidRows db c.id
    if rows.isEmpty then none
    else some
      { id := c.id
        name := c.name
        phone := c.phone
        totalVisits := rows.length
        totalRevenue := (rows.map (fun r => r.2.price)).sum
        lastVisit := (rows.map (fun r => r.1.appointment_date)).max? })

/-- `AttendanceService.get_top_clients` (lines 163-193 of the source). -/
def get_top_clients (db : DB) : List TopClientRow :=
  ((topClientGroups db).insertionSort visitsGE).take 10

/-! ### Civil-date arithmetic (Python `datetime.date`) -/

/-- A civil date as (year, month, day). -/
abbrev Civil := Nat × Nat × Nat

/-- Day number of a Gregorian civil date, counted from 0000-03-01
(valid for years ≥ 1). -/
def civilToDays (y m d : Nat) : Int :=
  let y1 := if m ≤ 2 then y - 1 else y
  let era := y1 / 400
  let yoe := y1 % 400
  let mp := if 2 < m then m - 3 else m + 9
  let doy := (153 * mp + 2) / 5 + (d - 1)
  let doe := yoe * 365 + yoe / 4 - yoe / 100 + doy
  ((era * 146097 + doe : Nat) : Int)

/-- Day number of a `Civil` triple. -/
def civilToDaysC (c : Civil) : Int := civilToDays c.1 c.2.1 c.2.2

/-- Civil date of a day number (inverse of `civilToDays` on valid dates). -/
def civilFromDays (z : Int) : Civil :=
  let z1 := z.toNat
  let era := z1 / 146097
  let doe := z1 % 146097
  let yoe := (doe - doe / 1460 + doe / 36524 - doe / 146096) / 365
  let y := yoe + era * 400
  let doy := doe - (365 * yoe + yoe / 4 - yoe / 100)
  let mp := (5 * doy + 2) / 153
  let d := doy - (153 * mp + 2) / 5 + 1
  let m := if mp < 10 then mp + 3 else mp - 9
  (if m ≤ 2 then y + 1 else y, m, d)

/-- Python `date.weekday()` (Monday = 0) of a day number. -/
def weekdayOf (n : Int) : Int := (n + 2) % 7

/-- The current-period resolution of `get_reports_summary_by_period`
(lines 260-288 of the source): explicit bounds verbatim, otherwise the
calendar bucket containing `today`, unrecognized granularity falling back
to the single day `today`. -/
def resolveCurrentPeriod (period : String) (bounds : Option (Civil × Civil))
    (today : Civil) : Int × Int :=
  match bounds with
  | some (s, e) => (civilToDaysC s, civilToDaysC e)
  | none =>
    let t := civilToDaysC today
    let y := today.1
    let m := today.2.1
    if period == "day" then (t, t)
    else if period == "week" then
      let cs := t - weekdayOf t
      (cs, cs + 6)
    else if period == "month" then
      let cs := civilToDays y m 1
      let ce := (if m == 12 then civilToDays (y + 1) 1 1 else civilToDays y (m + 1) 1) - 1
      (cs, ce)
    else if period == "quarter" then
      let qsm := ((m - 1) / 3) * 3 + 1
      let cs := civilToDays y qsm 1
      let ce := (if qsm == 10 then civilToDays (y + 1) 1 1 else civilToDays y (qsm + 3) 1) - 1
      (cs, ce)
    else if period == "year" then
      (civilToDays y 1 1, civilToDays (y + 1) 1 1 - 1)
    else (t, t)

/-- The period pair computed by `get_reports_summary_by_period`
(lines 290-293 of the source): the current period, and the derived
previous period `(start − days_diff, start − 1)`. -/
def get_reports_summary_period (period : String) (bounds : Option (Civil × Civil))
    (today : Civil) : (Int × Int) × (Int × Int) :=
  let cur := resolveCurrentPeriod period bounds today
  let days_diff := (cur.2 - cur.1) + 1
  ((cur.1, cur.2), (cur.1 - days_diff, cur.1 - 1))

/-! ### Revenue time series, `get_revenue_by_period` (lines 396-534) -/

/-- One data point of the revenue chart (the human-readable `label` string,
a pure formatting concern, is omitted). -/
structure RevenuePoint where
  date : Int
  revenue : Rat
deriving Repr, DecidableEq

/-- Summed `Service.price` over paid join rows whose appointment day number
lies in `[s, e]`. -/
def paidRevenueBetween (db : DB) (s e : Int) : Rat :=
  (((paidRows db).filter (fun r =>
      decide (s ≤ dateOf r.1.appointment_date) && decide (dateOf r.1.appointment_date ≤ e))).map
    (fun r => r.2.price)).sum

/-- The `while current <= end` loop of `get_revenue_by_period`, fuelled.
For an unrecognized granularity no branch of the `elif` chain matches, the
Python body does nothing and `current` is never advanced; here that is the
final case, which recurses on the same state and can only exhaust its fuel.
`none` means the fuel ran out before the loop exited. -/
def revenueLoop (db : DB) (period : String) (endD : Int) :
    Nat → Int → List RevenuePoint → Option (List RevenuePoint)
  | 0, _, _ => none
  | fuel + 1, current, acc =>
    if endD < current then some acc.reverse
    else if period == "day" then
      revenueLoop db period endD fuel (current + 1)
        ({ date := current, revenue := paidRevenueBetween db current current } :: acc)
    else if period == "week" then
      let week_end := min (current + 6) endD
      revenueLoop db period endD fuel (current + 7)
        ({ date := current, revenue := paidRevenueBetween db current week_end } :: acc)
    else if period == "month" then
      let c := civilFromDays current
      let nextFirst := if c.2.1 == 12 then civilToDays (c.1 + 1) 1 1
                       else civilToDays c.1 (c.2.1 + 1) 1
      revenueLoop db period endD fuel nextFirst
        ({ date := current, revenue := paidRevenueBetween db current (nextFirst - 1) } :: acc)
    else if period == "quarter" then
      let c := civilFromDays current
      let qem := ((c.2.1 - 1) / 3) * 3 + 3
      let quarter_end := (if 12 < qem then civilToDays (c.1 + 1) (qem - 12) 1
                          else civilToDays c.1 qem 1) - 1
      revenueLoop db period endD fuel (quarter_end + 1)
        ({ date := current, revenue := paidRevenueBetween db current quarter_end } :: acc)
    else if period == "year" then
      let c := civilFromDays current
      revenueLoop db period endD fuel (civilToDays (c.1 + 1) 1 1)
        ({ date := current, revenue := paidRevenueBetween db current (civilToDays c.1 12 31) } :: acc)
    else
      revenueLoop db period endD fuel current acc

/-- `AttendanceService.get_revenue_by_period`: the default look-back ranges
(lines 401-423 of the source) followed by the bucket loop. -/
def get_revenue_by_period (db : DB) (period : String) (bounds : Option (Int × Int))
    (today : Civil) (fuel : Nat) : Option (List RevenuePoint) :=
  let se : Int × Int :=
    match bounds with
    | some b => b
    | none =>
      let t := civilToDaysC today
      if period == "day" then (t - 30, t)
      else if period == "week" then (t - 12 * 7, t)
      else if period == "month" then (civilToDays today.1 today.2.1 1 - 365, t)
      else if period == "quarter" then (t - 4 * 90, t)
      else if period == "year" then (civilToDays today.1 1 1 - 365 * 3, t)
      else (t - 30, t)
  revenueLoop db period se.2 fuel se.1 []

/-! ### Concrete fixtures used by counterexamples and witnesses -/

/-- An attendance with a pending payment, used for the update counterexamples. -/
def c1db : DB := { attendances := [{ id := 1, client_id := 1, appointment_date := 0 }] }

/-- An update supplying both `status = "finished"` and an explicit
`paymentStatus = "cancelled"` in the same call. -/
def c1upd : AttendanceUpdate :=
  { status := some (some "finished"), payment_status := some (some "cancelled") }

/-- A store holding one inactive client and no services. -/
def c2db : DB := { clients := [{ id := 1, is_active := false }] }

/-- A creation request for that client naming a nonexistent service. -/
def c2att : AttendanceCreate := { client_id := 1, appointment_date := 0, service_ids := [99] }

/-- One client with a single paid attendance that references two services. -/
def c3db : DB :=
  { clients := [{ id := 1, name := "A", phone := "p" }]
    services := [{ id := 1, price := 10 }, { id := 2, price := 20 }]
    attendances := [{ id := 1, client_id := 1, appointment_date := 1000,
                      payment_status := "paid", services := [1, 2] }] }

/-- A store with an active client and one active service, plus an inactive
service, for the create-validation witness. -/
def c8db : DB :=
  { clients := [{ id := 1 }]
    services := [{ id := 1, price := 10 }, { id := 2, price := 5, is_active := false }] }

/-- An attendance carrying notes, used for the partial-update counterexample. -/
def c9db : DB :=
  { attendances := [{ id := 1, client_id := 1, appointment_date := 0,
                      notes := some "importante" }] }

/-- An update supplying `notes` explicitly as null and nothing else. -/
def c9upd : AttendanceUpdate := { notes := some none }

/-- Two clients, one active and one inactive. -/
def c10db : DB := { clients := [{ id := 1 }, { id := 2, is_active := false }] }

/-! ## Theorems -/

/-- C10: for every status-filter string other than `"active"` and
`"inactive"`, the client listing with that filter returns exactly the
unfiltered client list with the same skip and limit applied. -/
theorem c10_unrecognized_filter_behaves_like_all (db : DB) (f : String)
    (skip limit : Nat) (h1 : f ≠ "active") (h2 : f ≠ "inactive") :
    get_clients_with_status db f skip limit = get_clients db skip limit := by
  simp only [get_clients_with_status, get_clients, beq_iff_eq]
  rw [if_neg h1, if_neg h2]

/-- Witness for C10 at the concrete filter `"todos"`. -/
theorem c10_unrecognized_filter_behaves_like_all_witness :
    get_clients_with_status c10db "todos" 0 100 = get_clients c10db 0 100 :=
  c10_unrecognized_filter_behaves_like_all c10db "todos" 0 100 (by decide) (by decide)

/-- C7: for every resolved current period `(start, end)` the comparison
period is `previousEnd = start − 1` and
`previousStart = start − ((end − start) + 1)`; in particular for the
explicit bounds 2025-03-01 .. 2025-03-31 the previous period is
2025-01-29 .. 2025-02-28. -/
theorem c7_previous_period_is_equal_length_preceding_window :
    (∀ period bounds today,
      (get_reports_summary_period period bounds today).2.2 =
        (get_reports_summary_period period bounds today).1.1 - 1 ∧
      (get_reports_summary_period period bounds today).2.1 =
        (get_reports_summary_period period bounds today).1.1 -
          (((get_reports_summary_period period bounds today).1.2 -
            (get_reports_summary_period period bounds today).1.1) + 1)) ∧
    ((get_reports_summary_period "month" (some ((2025, 3, 1), (2025, 3, 31))) (2025, 10, 12)).2.1 =
        civilToDays 2025 1 29 ∧
     (get_reports_summary_period "month" (some ((2025, 3, 1), (2025, 3, 31))) (2025, 10, 12)).2.2 =
        civilToDays 2025 2 28) :=
  ⟨fun _ _ _ => ⟨rfl, rfl⟩, by decide⟩

/-- C1 counterexample: an update supplying `status = "finished"` together
with an explicit `paymentStatus = "cancelled"` leaves the attendance with
`paymentStatus = "cancelled"`, not `"paid"`: the explicit value is applied
after (and overrides) the forced one. -/
theorem c1_counterexample_explicit_payment_status_wins :
    (update_attendance c1db 50 1 c1upd).2 =
      .ok { id := 1, client_id := 1, appointment_date := 0, status := "finished",
            payment_status := "cancelled", updated_at := 50 } ∧
    ("cancelled" : String) ≠ "paid" :=
  ⟨rfl, by decide⟩

/-- Field-by-field characterization of a successful `update_attendance`:
unsupplied fields keep their value, a supplied non-null (and, for `status`,
non-empty) value is applied, a supplied null `status`/`paymentMethod`/
`paymentStatus` is ignored, a supplied `notes` value is applied even when
null, `paymentStatus` is forced to `"paid"` by `status = "finished"` unless
a non-null `paymentStatus` was supplied in the same call, and `updatedAt`
is always set to now. -/
lemma update_attendance_fields (db : DB) (now : Timestamp) (aid : Nat)
    (u : AttendanceUpdate) (a a' : Attendance)
    (hfind : db.attendances.find? (fun x => x.id == aid) = some a)
    (hok : (update_attendance db now aid u).2 = .ok a') :
    a'.id = a.id ∧ a'.client_id = a.client_id ∧
    a'.appointment_date = a.appointment_date ∧ a'.created_at = a.created_at ∧
    a'.services = a.services ∧ a'.updated_at = now ∧
    a'.status = (match dictGet u.status with
      | some s => if s = "" then a.status else s
      | none => a.status) ∧
    a'.payment_method = (match u.payment_method with
      | some (some v) => some v
      | _ => a.payment_method) ∧
    a'.notes = (match u.notes with
      | some v => v
      | none => a.notes) ∧
    a'.payment_status = (match u.payment_status with
      | some (some v) => v
      | _ => match dictGet u.status with
        | some s => if s = "finished" then "paid" else a.payment_status
        | none => a.payment_status) := by
  unfold update_attendance at hok
  rw [hfind] at hok
  rcases u with ⟨st, pm, ps, nt⟩
  rcases st with _ | (_ | s) <;> rcases pm with _ | (_ | pmv) <;>
    rcases ps with _ | (_ | psv) <;> rcases nt with _ | nv <;>
    simp only [dictGet, Option.getD] at hok ⊢ <;>
    simp only [Except.ok.injEq] at hok <;>
    subst hok <;>
    first
      | (by_cases hs : s = "" <;> simp_all [beq_iff_eq])
      | simp_all [beq_iff_eq]

/-- C1 amended: if `status = "finished"` is supplied and the same call's
`paymentStatus` is absent or null, the attendance ends with
`paymentStatus = "paid"` regardless of its prior value. (An explicit
non-null `paymentStatus` supplied in the same call overrides the forced
value, contrary to the original claim.) -/
theorem c1_amended_finished_forces_paid_unless_explicit (db : DB) (now : Timestamp)
    (aid : Nat) (u : AttendanceUpdate) (a' : Attendance)
    (hs : u.status = some (some "finished"))
    (hp : u.payment_status = none ∨ u.payment_status = some none)
    (hok : (update_attendance db now aid u).2 = .ok a') :
    a'.payment_status = "paid" := by
  cases hfind : db.attendances.find? (fun x => x.id == aid) with
  | none =>
    unfold update_attendance at hok
    rw [hfind] at hok
    simp at hok
  | some a =>
    obtain ⟨-, -, -, -, -, -, -, -, -, hps⟩ :=
      update_attendance_fields db now aid u a a' hfind hok
    rw [hs] at hps
    rcases hp with hp | hp <;> rw [hp] at hps <;> simpa [dictGet] using hps

/-- Witness for C1 amended: updating a pending attendance with only
`status = "finished"` yields `paymentStatus = "paid"`. -/
theorem c1_amended_finished_forces_paid_unless_explicit_witness :
    ({ id := 1, client_id := 1, appointment_date := 0, status := "finished",
       payment_status := "paid", updated_at := 60 } : Attendance).payment_status = "paid" :=
  c1_amended_finished_forces_paid_unless_explicit c1db 60 1
    { status := some (some "finished") } _ rfl (Or.inl rfl) rfl

/-- C9 counterexample: an update supplying `notes` explicitly as null does
not leave the field unchanged — it clears it (the source checks
`is not None` for `payment_method` and `payment_status` but not for
`notes`). -/
theorem c9_counterexample_null_notes_clears :
    (update_attendance c9db 77 1 c9upd).2 =
      .ok { id := 1, client_id := 1, appointment_date := 0, notes := none,
            updated_at := 77 } ∧
    (none : Option String) ≠ some "importante" :=
  ⟨rfl, by decide⟩

/-- C9 amended: in a successful `update_attendance`, unsupplied fields keep
their value except `paymentStatus`, which is forced to `"paid"` when the
same call supplies `status = "finished"`; supplied `paymentMethod` and
`paymentStatus` are applied only when non-null; a supplied `status` is
applied only when non-null and non-empty; a supplied `notes` value is
applied even when null; `updatedAt` is always set to now. -/
theorem c9_amended_partial_update_frame (db : DB) (now : Timestamp) (aid : Nat)
    (u : AttendanceUpdate) (a a' : Attendance)
    (hfind : db.attendances.find? (fun x => x.id == aid) = some a)
    (hok : (update_attendance db now aid u).2 = .ok a') :
    a'.id = a.id ∧ a'.client_id = a.client_id ∧
    a'.appointment_date = a.appointment_date ∧ a'.created_at = a.created_at ∧
    a'.services = a.services ∧ a'.updated_at = now ∧
    a'.status = (match dictGet u.status with
      | some s => if s = "" then a.status else s
      | none => a.status) ∧
    a'.payment_method = (match u.payment_method with
      | some (some v) => some v
      | _ => a.payment_method) ∧
    a'.notes = (match u.notes with
      | some v => v
      | none => a.notes) ∧
    a'.payment_status = (match u.payment_status with
      | some (some v) => v
      | _ => match dictGet u.status with
        | some s => if s = "finished" then "paid" else a.payment_status
        | none => a.payment_status) :=
  update_attendance_fields db now aid u a a' hfind hok

/-- Witness for C9 amended at the concrete null-notes update. -/
theorem c9_amended_partial_update_frame_witness :
    ({ id := 1, client_id := 1, appointment_date := 0, notes := none,
       updated_at := 77 } : Attendance).updated_at = 77 :=
  (c9_amended_partial_update_frame c9db 77 1 c9upd _ _ rfl rfl).2.2.2.2.2.1

lemma reactivateIfInactive_services (db : DB) (now : Timestamp) (cid : Nat)
    (client : Client) : (reactivateIfInactive db now cid client).services = db.services := by
  unfold reactivateIfInactive
  split <;> rfl

lemma reactivateIfInactive_attendances (db : DB) (now : Timestamp) (cid : Nat)
    (client : Client) : (reactivateIfInactive db now cid client).attendances = db.attendances := by
  unfold reactivateIfInactive
  split <;> rfl

lemma reactivateIfInactive_nextAttendanceId (db : DB) (now : Timestamp) (cid : Nat)
    (client : Client) :
    (reactivateIfInactive db now cid client).nextAttendanceId = db.nextAttendanceId := by
  unfold reactivateIfInactive
  split <;> rfl

lemma reactivateIfInactive_clients (db : DB) (now : Timestamp) (cid : Nat)
    (client : Client) :
    (reactivateIfInactive db now cid client).clients =
      (if client.is_active then db.clients
       else db.clients.map (fun c =>
         if c.id = cid then { c with is_active := true, updated_at := now } else c)) := by
  unfold reactivateIfInactive
  by_cases ha : client.is_active
  · simp [ha]
  · simp [ha, beq_iff_eq]

/-- C2 counterexample: `create_attendance` on an inactive client with an
invalid service id fails with the validation error, yet the commit of the
client reactivation performed before the service check persists: the client
is active with a bumped `updatedAt` after the failed call. -/
theorem c2_counterexample_failed_create_leaves_client_reactivated :
    (create_attendance c2db 100 c2att).2 =
      .error ⟨400, "Um ou mais serviços inválidos/inativos"⟩ ∧
    (create_attendance c2db 100 c2att).1.clients.map (fun c => (c.is_active, c.updated_at)) =
      [(true, 100)] ∧
    c2db.clients.map (fun c => (c.is_active, c.updated_at)) = [(false, 0)] :=
  ⟨rfl, rfl, rfl⟩

/-- C2 amended: a `create_attendance` that fails with the 404 client-not-found
error leaves the store unchanged; one that fails with the 400 service
validation error leaves services, attendances and the id counter unchanged
but has already committed the reactivation of the addressed client when it
was inactive. -/
theorem c2_amended_create_not_atomic (db : DB) (now : Timestamp)
    (att : AttendanceCreate) (db' : DB) (e : HTTPError)
    (herr : create_attendance db now att = (db', .error e)) :
    (e.status_code = 404 → db' = db) ∧
    (e.status_code = 400 →
      db'.services = db.services ∧ db'.attendances = db.attendances ∧
      db'.nextAttendanceId = db.nextAttendanceId ∧
      ∃ client ∈ db.clients, client.id = att.client_id ∧
        db'.clients = (if client.is_active then db.clients
          else db.clients.map (fun c =>
            if c.id = att.client_id then { c with is_active := true, updated_at := now }
            else c))) := by
  unfold create_attendance at herr
  cases hfind : db.clients.find? (fun c => c.id == att.client_id) with
  | none =>
    rw [hfind] at herr
    simp only [Prod.mk.injEq, Except.error.injEq] at herr
    obtain ⟨rfl, rfl⟩ := herr
    exact ⟨fun _ => rfl, fun h => absurd h (by decide)⟩
  | some client =>
    rw [hfind] at herr
    have hmem : client ∈ db.clients := List.mem_of_find?_eq_some hfind
    have hid : client.id = att.client_id := by
      have := List.find?_some hfind
      simpa using this
    simp only [] at herr
    split at herr
    · simp only [Prod.mk.injEq, Except.error.injEq] at herr
      obtain ⟨hdb, rfl⟩ := herr
      refine ⟨fun h => absurd h (by decide), fun _ => ?_⟩
      subst hdb
      refine ⟨reactivateIfInactive_services .., reactivateIfInactive_attendances ..,
        reactivateIfInactive_nextAttendanceId .., client, hmem, hid,
        reactivateIfInactive_clients ..⟩
    · simp at herr

/-- Witness for C2 amended at the concrete failing create. -/
theorem c2_amended_create_not_atomic_witness :
    (create_attendance c2db 100 c2att).1.services = c2db.services ∧
    (create_attendance c2db 100 c2att).1.attendances = c2db.attendances :=
  ⟨((c2_amended_create_not_atomic c2db 100 c2att _ _ rfl).2 rfl).1,
   ((c2_amended_create_not_atomic c2db 100 c2att _ _ rfl).2 rfl).2.1⟩

/-- The revenue bucket loop never produces a result for a granularity
outside the five recognized ones: no branch of the `elif` chain fires,
`current` is never advanced, and the `while current <= end` guard stays
true, for any amount of fuel. -/
lemma revenueLoop_unrecognized (db : DB) (period : String) (endD : Int)
    (h1 : period ≠ "day") (h2 : period ≠ "week") (h3 : period ≠ "month")
    (h4 : period ≠ "quarter") (h5 : period ≠ "year") :
    ∀ (fuel : Nat) (current : Int) (acc : List RevenuePoint), current ≤ endD →
      revenueLoop db period endD fuel current acc = none := by
  intro fuel
  induction fuel with
  | zero => intro current acc _; rfl
  | succ n ih =>
    intro current acc hle
    unfold revenueLoop
    rw [if_neg (by omega), if_neg (by simpa using h1), if_neg (by simpa using h2),
      if_neg (by simpa using h3), if_neg (by simpa using h4), if_neg (by simpa using h5)]
    exact ih current acc hle

/-- C4: for every granularity string outside
{day, week, month, quarter, year} with bounds omitted,
`get_revenue_by_period` does not return the 30-day daily series (nor
anything else): the default range `today − 30 .. today` satisfies the loop
guard and the loop body never advances `current`, so the call never
terminates — modelled as `none` for every fuel. -/
theorem c4_unrecognized_granularity_never_terminates (db : DB) (period : String)
    (today : Civil) (fuel : Nat)
    (h1 : period ≠ "day") (h2 : period ≠ "week") (h3 : period ≠ "month")
    (h4 : period ≠ "quarter") (h5 : period ≠ "year") :
    get_revenue_by_period db period none today fuel = none := by
  simp only [get_revenue_by_period, beq_iff_eq]
  rw [if_neg h1, if_neg h2, if_neg h3, if_neg h4, if_neg h5]
  exact revenueLoop_unrecognized db period _ h1 h2 h3 h4 h5 fuel _ [] (by omega)

/-- Witness for C4 at the concrete granularity `"invalid"`. -/
theorem c4_unrecognized_granularity_never_terminates_witness :
    get_revenue_by_period {} "invalid" none (2025, 10, 12) 5 = none :=
  c4_unrecognized_granularity_never_terminates {} "invalid" (2025, 10, 12) 5
    (by decide) (by decide) (by decide) (by decide) (by decide)

/-- The selection predicate of the auto-inactivation batch coincides with
the specification's criterion. -/
lemma shouldAutoInactivate_iff (db : DB) (now : Timestamp) (days_inactive : Nat)
    (c : Client) :
    shouldAutoInactivate db (now - (days_inactive : Int) * 86400) c = true ↔
      inactivationDue db now days_inactive c := by
  have hmem : ∀ x : Nat,
      (recentClientIds db (now - (days_inactive : Int) * 86400)).contains x = true ↔
        ∃ a ∈ db.attendances,
          dateOf (now - (days_inactive : Int) * 86400) ≤ dateOf a.appointment_date ∧
            a.client_id = x := by
    intro x
    simp [recentClientIds, List.mem_filter, and_assoc]
  unfold shouldAutoInactivate inactivationDue
  rw [Bool.and_eq_true, Bool.not_eq_true']
  constructor
  · rintro ⟨hact, hno⟩
    refine ⟨hact, fun a ha hcid => ?_⟩
    by_contra hge
    have hc := (hmem c.id).mpr ⟨a, ha, not_lt.mp hge, hcid⟩
    rw [hc] at hno
    exact absurd hno (by decide)
  · rintro ⟨hact, hall⟩
    refine ⟨hact, ?_⟩
    cases hcc : (recentClientIds db (now - (days_inactive : Int) * 86400)).contains c.id with
    | false => rfl
    | true =>
      obtain ⟨a, ha, hdate, hcid⟩ := (hmem c.id).mp hcc
      exact absurd hdate (not_le.mpr (hall a ha hcid))

/-- C5: `auto_inactivate_clients` flips `isActive` to false and sets
`updatedAt` to now for exactly the currently-active clients with no
attendance on or after the cutoff day (including clients with no
attendances), leaves every other client and all other tables unchanged,
and returns the number of clients so inactivated. -/
theorem c5_auto_inactivation_exact (db : DB) (now : Timestamp) (days_inactive : Nat) :
    (auto_inactivate_clients db now days_inactive).2 =
      (db.clients.filter (fun c => decide (inactivationDue db now days_inactive c))).length ∧
    (auto_inactivate_clients db now days_inactive).1.clients =
      db.clients.map (fun c =>
        if inactivationDue db now days_inactive c
        then { c with is_active := false, updated_at := now } else c) ∧
    (auto_inactivate_clients db now days_inactive).1.attendances = db.attendances ∧
    (auto_inactivate_clients db now days_inactive).1.services = db.services := by
  refine ⟨?_, ?_, rfl, rfl⟩
  · simp only [auto_inactivate_clients]
    congr 1
    apply List.filter_congr
    intro c _
    by_cases h : inactivationDue db now days_inactive c
    · rw [decide_eq_true h]
      exact (shouldAutoInactivate_iff db now days_inactive c).mpr h
    · rw [decide_eq_false h]
      exact Bool.eq_false_iff.mpr
        (fun hx => h ((shouldAutoInactivate_iff db now days_inactive c).mp hx))
  · simp only [auto_inactivate_clients]
    apply List.map_congr_left
    intro c _
    by_cases h : inactivationDue db now days_inactive c
    · rw [if_pos ((shouldAutoInactivate_iff db now days_inactive c).mpr h), if_pos h]
    · rw [if_neg (fun hx => h ((shouldAutoInactivate_iff db now days_inactive c).mp hx)),
        if_neg h]

lemma activeRequested_reactivate (db : DB) (now : Timestamp) (cid : Nat)
    (client : Client) (ids : List Nat) :
    activeRequested (reactivateIfInactive db now cid client) ids = activeRequested db ids := by
  unfold activeRequested
  rw [reactivateIfInactive_services]

/-- Under the primary-key property of the services table, the strict
cardinality check of `create_attendance` compares the number of distinct
currently-active matches with the request length. -/
lemma distinctActiveMatched_eq_length (db : DB) (ids : List Nat)
    (hnodup : (db.services.map (fun s => s.id)).Nodup) :
    distinctActiveMatched db ids = (activeRequested db ids).length := by
  have hsub : List.Sublist (activeRequested db ids) db.services := List.filter_sublist _
  have hnd : ((activeRequested db ids).map (fun s => s.id)).Nodup :=
    hnodup.sublist (hsub.map _)
  unfold distinctActiveMatched
  rw [List.dedup_eq_self.mpr hnd, List.length_map]

/-- C8: given an existing client (and services with distinct ids, the
table's primary-key property), `create_attendance` fails with the 400
validation error exactly when the requested id list is empty or the number
of distinct currently-active matching services differs from the number of
requested ids, and succeeds otherwise. -/
theorem c8_create_service_validation (db : DB) (now : Timestamp) (att : AttendanceCreate)
    (hclient : ∃ c ∈ db.clients, c.id = att.client_id)
    (hnodup : (db.services.map (fun s => s.id)).Nodup) :
    ((∃ e, (create_attendance db now att).2 = .error e ∧ e.status_code = 400) ↔
      (att.service_ids = [] ∨
        distinctActiveMatched db att.service_ids ≠ att.service_ids.length)) ∧
    ((∃ a, (create_attendance db now att).2 = .ok a) ↔
      ¬(att.service_ids = [] ∨
        distinctActiveMatched db att.service_ids ≠ att.service_ids.length)) := by
  obtain ⟨c0, hc0mem, hc0id⟩ := hclient
  have hcond :
      (((activeRequested db att.service_ids).isEmpty ||
        (activeRequested db att.service_ids).length != att.service_ids.length) = true) ↔
        (att.service_ids = [] ∨
          distinctActiveMatched db att.service_ids ≠ att.service_ids.length) := by
    rw [distinctActiveMatched_eq_length db att.service_ids hnodup]
    simp only [Bool.or_eq_true, List.isEmpty_iff, bne_iff_ne, ne_eq]
    constructor
    · rintro (hnil | hne)
      · by_cases hids : att.service_ids = []
        · exact Or.inl hids
        · refine Or.inr (fun hlen => hids ?_)
          rw [hnil] at hlen
          exact List.eq_nil_of_length_eq_zero hlen.symm
      · exact Or.inr hne
    · rintro (hids | hne)
      · exact Or.inl (by simp [activeRequested, hids])
      · exact Or.inr hne
  cases hfind : db.clients.find? (fun c => c.id == att.client_id) with
  | none =>
    exact absurd (by simp [hc0id] : (c0.id == att.client_id) = true)
      (List.find?_eq_none.mp hfind c0 hc0mem)
  | some client =>
    simp only [create_attendance, hfind, activeRequested_reactivate]
    by_cases hc : (((activeRequested db att.service_ids).isEmpty ||
        (activeRequested db att.service_ids).length != att.service_ids.length) = true)
    · rw [if_pos hc]
      refine ⟨⟨fun _ => hcond.mp hc, fun _ => ⟨⟨400, _⟩, rfl, rfl⟩⟩, ?_, ?_⟩
      · rintro ⟨a, ha⟩
        exact absurd ha (by simp)
      · intro hn
        exact absurd (hcond.mp hc) hn
    · rw [if_neg hc]
      refine ⟨⟨?_, fun hr => absurd (hcond.mpr hr) hc⟩, ?_, ?_⟩
      · rintro ⟨e, he, -⟩
        exact absurd he (by simp)
      · intro _
        exact fun hr => hc (hcond.mpr hr)
      · intro _
        exact ⟨_, rfl⟩

/-- Witness for C8: with one active matching service the creation succeeds;
with an inactive requested service it fails with the validation error. -/
theorem c8_create_service_validation_witness :
    (∃ a, (create_attendance c8db 0
      { client_id := 1, appointment_date := 5, service_ids := [1] }).2 = .ok a) ∧
    (∃ e, (create_attendance c8db 0
      { client_id := 1, appointment_date := 5, service_ids := [2] }).2 = .error e ∧
      e.status_code = 400) :=
  ⟨(c8_create_service_validation c8db 0
      { client_id := 1, appointment_date := 5, service_ids := [1] }
      ⟨{ id := 1 }, by decide⟩ (by decide)).2.mpr (by decide),
   (c8_create_service_validation c8db 0
      { client_id := 1, appointment_date := 5, service_ids := [2] }
      ⟨{ id := 1 }, by decide⟩ (by decide)).1.mpr (by decide)⟩

/-- C3 counterexample: a client with exactly one paid attendance that
references two services is reported with `totalVisits = 2`:
`COUNT(Attendance.id)` counts the join rows produced by joining
`Attendance.services`, not distinct attendances. -/
theorem c3_counterexample_visits_count_join_rows :
    (get_top_clients c3db).map (fun r => r.totalVisits) = [2] ∧
    (c3db.attendances.filter
      (fun a => a.client_id == 1 && a.payment_status == "paid")).length = 1 :=
  ⟨rfl, rfl⟩

lemma topClientGroups_length (db : DB) :
    (topClientGroups db).length =
      (db.clients.filter (fun c => !(clientPaidRows db c.id).isEmpty)).length := by
  unfold topClientGroups
  simp only [List.isEmpty_iff]
  generalize db.clients = l
  induction l with
  | nil => rfl
  | cons a t ih =>
    by_cases h : clientPaidRows db a.id = [] <;> simp [List.filterMap_cons, h, ih]

/-- The grouped rows are exactly the per-client aggregates of clients owning
at least one paid join row. -/
lemma mem_topClientGroups {db : DB} {r : TopClientRow} :
    r ∈ topClientGroups db ↔ ∃ c ∈ db.clients, clientPaidRows db c.id ≠ [] ∧
      r = { id := c.id, name := c.name, phone := c.phone,
            totalVisits := (clientPaidRows db c.id).length,
            totalRevenue := ((clientPaidRows db c.id).map (fun p => p.2.price)).sum,
            lastVisit := ((clientPaidRows db c.id).map (fun p => p.1.appointment_date)).max? } := by
  unfold topClientGroups
  simp only [List.mem_filterMap]
  constructor
  · rintro ⟨c, hc, hf⟩
    by_cases h : (clientPaidRows db c.id).isEmpty
    · rw [if_pos h] at hf
      cases hf
    · rw [if_neg h] at hf
      rw [Option.some.injEq] at hf
      exact ⟨c, hc, fun hnil => h (List.isEmpty_iff.mpr hnil), hf.symm⟩
  · rintro ⟨c, hc, hne, rfl⟩
    refine ⟨c, hc, ?_⟩
    rw [if_neg (fun h => hne (List.isEmpty_iff.mp h))]

/-- C3 amended: `get_top_clients` returns at most 10 rows, ordered by
descending visit count, one row per client owning at least one paid
(attendance, service) join row; each row's `totalVisits` is the number of
such join rows (an attendance referencing k services counts k times),
`totalRevenue` is the sum of the current prices over those join rows, and
`lastVisit` is the most recent appointment timestamp among them; whenever
at most 10 clients qualify, every qualifying client appears. -/
theorem c3_amended_top_clients (db : DB) :
    (get_top_clients db).length ≤ 10 ∧
    (get_top_clients db).Pairwise visitsGE ∧
    (∀ r ∈ get_top_clients db, ∃ c ∈ db.clients, r.id = c.id ∧
      r.totalVisits = (clientPaidRows db c.id).length ∧
      clientPaidRows db c.id ≠ [] ∧
      r.totalRevenue = ((clientPaidRows db c.id).map (fun p => p.2.price)).sum ∧
      r.lastVisit = ((clientPaidRows db c.id).map (fun p => p.1.appointment_date)).max?) ∧
    ((db.clients.filter (fun c => !(clientPaidRows db c.id).isEmpty)).length ≤ 10 →
      ∀ c ∈ db.clients, clientPaidRows db c.id ≠ [] →
        ∃ r ∈ get_top_clients db, r.id = c.id) := by
  refine ⟨List.length_take_le 10 _, ?_, ?_, ?_⟩
  · exact List.Pairwise.sublist (List.take_sublist 10 _)
      (List.sorted_insertionSort visitsGE (topClientGroups db))
  · intro r hr
    have hr1 : r ∈ (topClientGroups db).insertionSort visitsGE :=
      List.take_subset 10 _ hr
    obtain ⟨c, hc, hne, rfl⟩ := mem_topClientGroups.mp ((List.mem_insertionSort visitsGE).mp hr1)
    exact ⟨c, hc, rfl, rfl, hne, rfl, rfl⟩
  · intro hle c hc hne
    have hlen : ((topClientGroups db).insertionSort visitsGE).length ≤ 10 := by
      rw [List.length_insertionSort, topClientGroups_length]
      exact hle
    have htake : ((topClientGroups db).insertionSort visitsGE).take 10 =
        (topClientGroups db).insertionSort visitsGE :=
      List.take_of_length_le hlen
    refine ⟨{ id := c.id, name := c.name, phone := c.phone,
              totalVisits := (clientPaidRows db c.id).length,
              totalRevenue := ((clientPaidRows db c.id).map (fun p => p.2.price)).sum,
              lastVisit := ((clientPaidRows db c.id).map (fun p => p.1.appointment_date)).max? },
      ?_, rfl⟩
    unfold get_top_clients
    rw [htake, List.mem_insertionSort]
    exact mem_topClientGroups.mpr ⟨c, hc, hne, rfl⟩

/-- Witness for C3 amended at the two-service store. -/
theorem c3_amended_top_clients_witness :
    ∃ r ∈ get_top_clients c3db, r.id = 1 :=
  (c3_amended_top_clients c3db).2.2.2 (by decide) { id := 1, name := "A", phone := "p" }
    (by decide) (by decide)

lemma eq_of_length_eleven {α : Type} {l : List α} (hl : l.length = 11) :
    ∃ d0 d1 d2 d3 d4 d5 d6 d7 d8 d9 d10,
      l = [d0, d1, d2, d3, d4, d5, d6, d7, d8, d9, d10] := by
  rcases l with _ | ⟨d0, _ | ⟨d1, _ | ⟨d2, _ | ⟨d3, _ | ⟨d4, _ | ⟨d5, _ | ⟨d6, _ | ⟨d7,
    _ | ⟨d8, _ | ⟨d9, _ | ⟨d10, _ | ⟨d11, tl⟩⟩⟩⟩⟩⟩⟩⟩⟩⟩⟩⟩ <;>
    first
      | (exact ⟨d0, d1, d2, d3, d4, d5, d6, d7, d8, d9, d10, rfl⟩)
      | (simp only [List.length_cons, List.length_nil] at hl; omega)

/-- Unfolding of the boolean validator into its three conditions. -/
lemma cpfDigitsValid_iff (ds : List Nat) :
    cpfDigitsValid ds = true ↔
      (ds.length = 11 ∧ ds ≠ List.replicate 11 (ds.headD 0) ∧
       ds.drop 9 = [checkDigit (ds.take 9),
                    checkDigit (ds.take 9 ++ [checkDigit (ds.take 9)])]) := by
  unfold cpfDigitsValid
  split_ifs with h1 h2
  · simp [h1]
  · simp only [Bool.false_eq_true, false_iff, not_and]
    intro _ hne
    exact absurd (by simpa using h2) hne
  · push_neg at h1
    have h2' : ds ≠ List.replicate 11 (ds.headD 0) := fun he => h2 (beq_iff_eq.mpr he)
    rw [beq_iff_eq]
    exact ⟨fun h => ⟨h1, h2', h⟩, fun h => h.2.2⟩

/-- C6: the tax-id validator accepts a string exactly when its digit
sequence is 11 digits long, is not 11 copies of one digit, and ends with
the two mod-11 check digits (the second computed over the first ten
digits); and changing only the last digit of a valid sequence always
yields an invalid one. -/
theorem c6_cpf_validator_characterization :
    (∀ s : String, is_valid_cpf s = true ↔ cpfClaimValid (only_digits s)) ∧
    (∀ (ds : List Nat) (c : Nat), cpfDigitsValid ds = true → c ≠ ds.getLastD 0 →
      cpfDigitsValid (ds.take 10 ++ [c]) = false) := by
  have hiff : ∀ ds : List Nat, cpfDigitsValid ds = true ↔ cpfClaimValid ds := by
    intro ds
    rw [cpfDigitsValid_iff]
    unfold cpfClaimValid
    constructor
    · rintro ⟨h11, hrep, hchk⟩
      obtain ⟨d0, d1, d2, d3, d4, d5, d6, d7, d8, d9, d10, rfl⟩ := eq_of_length_eleven h11
      refine ⟨h11, ?_, ?_⟩
      · intro d hd
        apply hrep
        have hd0 : d0 = d := congrArg (fun l => l.headD 0) hd
        subst hd0
        exact hd
      · injection hchk with h9 hrest
        injection hrest with h10 hnil
        show ([d9, d10] : List Nat) =
          [checkDigit [d0, d1, d2, d3, d4, d5, d6, d7, d8],
           checkDigit [d0, d1, d2, d3, d4, d5, d6, d7, d8, d9]]
        have h9' : d9 = checkDigit [d0, d1, d2, d3, d4, d5, d6, d7, d8] := h9
        have h10' : d10 = checkDigit ([d0, d1, d2, d3, d4, d5, d6, d7, d8] ++
            [checkDigit [d0, d1, d2, d3, d4, d5, d6, d7, d8]]) := h10
        have hca : checkDigit [d0, d1, d2, d3, d4, d5, d6, d7, d8, d9] =
            checkDigit ([d0, d1, d2, d3, d4, d5, d6, d7, d8] ++ [d9]) := rfl
        rw [hca, h9', h10']
    · rintro ⟨h11, hrep, hchk⟩
      obtain ⟨d0, d1, d2, d3, d4, d5, d6, d7, d8, d9, d10, rfl⟩ := eq_of_length_eleven h11
      refine ⟨h11, fun hd => hrep d0 hd, ?_⟩
      injection hchk with h9 hrest
      injection hrest with h10 hnil
      show ([d9, d10] : List Nat) =
        [checkDigit [d0, d1, d2, d3, d4, d5, d6, d7, d8],
         checkDigit ([d0, d1, d2, d3, d4, d5, d6, d7, d8] ++
           [checkDigit [d0, d1, d2, d3, d4, d5, d6, d7, d8]])]
      have h9' : d9 = checkDigit [d0, d1, d2, d3, d4, d5, d6, d7, d8] := h9
      have h10' : d10 = checkDigit [d0, d1, d2, d3, d4, d5, d6, d7, d8, d9] := h10
      have hca : checkDigit [d0, d1, d2, d3, d4, d5, d6, d7, d8, d9] =
          checkDigit ([d0, d1, d2, d3, d4, d5, d6, d7, d8] ++ [d9]) := rfl
      rw [h10', hca, h9']
  refine ⟨fun s => hiff (only_digits s), ?_⟩
  intro ds c hv hne
  obtain ⟨h11, hrep, hchk⟩ := (cpfDigitsValid_iff ds).mp hv
  obtain ⟨d0, d1, d2, d3, d4, d5, d6, d7, d8, d9, d10, rfl⟩ := eq_of_length_eleven h11
  injection hchk with h9 hrest
  injection hrest with h10 hnil
  have h10' : d10 = checkDigit ([d0, d1, d2, d3, d4, d5, d6, d7, d8] ++
      [checkDigit [d0, d1, d2, d3, d4, d5, d6, d7, d8]]) := h10
  have hne' : c ≠ d10 := hne
  show cpfDigitsValid [d0, d1, d2, d3, d4, d5, d6, d7, d8, d9, c] = false
  rw [Bool.eq_false_iff]
  intro hv2
  obtain ⟨-, -, hchk2⟩ := (cpfDigitsValid_iff _).mp hv2
  injection hchk2 with h9m hrestm
  injection hrestm with hcm hnilm
  have hcm' : c = checkDigit ([d0, d1, d2, d3, d4, d5, d6, d7, d8] ++
      [checkDigit [d0, d1, d2, d3, d4, d5, d6, d7, d8]]) := hcm
  exact hne' (hcm'.trans h10'.symm)

/-- Witness for C6: the reference id 529.982.247-25 is accepted, and
changing its last digit invalidates it. -/
theorem c6_cpf_validator_characterization_witness :
    cpfClaimValid (only_digits "529.982.247-25") ∧
    cpfDigitsValid ([5, 2, 9, 9, 8, 2, 2, 4, 7, 2, 5].take 10 ++ [6]) = false :=
  ⟨(c6_cpf_validator_characterization.1 "529.982.247-25").mp rfl,
   c6_cpf_validator_characterization.2 [5, 2, 9, 9, 8, 2, 2, 4, 7, 2, 5] 6
     (by decide) (by decide)⟩

end Barbearia
